import Mathlib

/-!
A shallow embedding of
`temoa/extensions/modeling_to_generate_alternatives/mga_sequencer.py`
(the MGA sequencer / orchestrator of the Temoa energy-model framework),
together with theorems settling the specification claims about it.

The embedding follows the Python source line by line:

* `MgaSequencer.init` embeds `MgaSequencer.__init__` (lines 60-140),
  returning the ordered list of constructor side effects next to an
  `Except` value (the constructor can raise `NotImplementedError`).
* `startPreamble` embeds the straight-line part of `MgaSequencer.start`
  (lines 142-232): data load, base solve, unconditional result write,
  cost-cap constraint, objective deletion, kwargs construction and worker
  start, as an event trace.  Attribute accesses on never-assigned fields
  (`self.opt`, `self.options`) surface as `AttributeError`.
* `loopRound` embeds one body execution of the main `while` loop
  (lines 233-258); `loopRun` iterates it under the loop guard.
  The environment of a round (`RoundEnv`) carries what the worker pool
  did asynchronously: how many queued instances workers removed, which
  results are present in the result channel when the orchestrator's
  `result_queue.get()` executes, and the wall-clock time of the round.
  `result_queue.get()` is called with its default `block=True`, so a
  round with an empty result channel does not complete: `loopRound`
  returns `none` in that case.
* `shutdownProtocol` embeds the shutdown block (lines 260-301).
  `Worker` itself (`worker.py`) is not part of the sources; its
  sentinel behaviour is modelled from the spec (see `joinWorker`).

Machine reals of the Python code (costs, epsilon, hours) are modelled
as `ℚ`; model instances and solve results are identified by `Nat` ids.
-/

namespace Temoa

/-- Axis constants from `mga_constants.MgaAxis` (referenced by the
sequencer; only the default used there is needed). -/
inductive MgaAxis
  | techCategoryActivity
  | otherAxis (name : String)
deriving DecidableEq, Repr

/-- Weighting constants from `mga_constants.MgaWeighting`. -/
inductive MgaWeighting
  | hullExpansion
  | otherWeighting (name : String)
deriving DecidableEq, Repr

/-- The `config.mga_inputs` dictionary: the keys read by the sequencer,
each possibly absent (`dict.get`). -/
structure MgaInputs where
  axis : Option MgaAxis
  weighting : Option MgaWeighting
  iteration_limit : Option Nat
  time_limit_hrs : Option ℚ
  cost_epsilon : Option ℚ
deriving DecidableEq, Repr

/-- The slice of `TemoaConfig` the sequencer reads. -/
structure TemoaConfig where
  input_database : String
  output_database : String
  source_trace : Bool
  save_lp_file : Bool
  save_duals : Bool
  save_excel : Bool
  scenario : String
  solver_name : String
  mga_inputs : MgaInputs
  silent : Bool
deriving DecidableEq, Repr

/-- Which solver object `self.opt` was bound to. -/
inductive SolverHandle
  | appsiHighs
  | gurobi
  | cbc
deriving DecidableEq, Repr

/-- The literal options dict assigned for gurobi (lines 99-105):
Threads 4, TimeLimit 3600*2. -/
def gurobi_options : List (String × Nat) := [("Threads", 4), ("TimeLimit", 3600 * 2)]

/-- Exceptions the embedded code can raise. -/
inductive MgaError
  | notImplementedError (msg : String)
  | attributeError (attr : String)
deriving DecidableEq, Repr

/-- Observable side effects of `__init__`, in program order. -/
inductive InitEffect
  | openConnection (db : String)
  | logWarning (msg : String)
  | clearIndexedScenarios
deriving DecidableEq, Repr

/-- The state of the orchestrator after a successful `__init__`. -/
structure MgaSequencer where
  con_db : String
  config : TemoaConfig
  opt : Option SolverHandle
  std_opt : Option SolverHandle
  options : Option (List (String × Nat))
  internal_stop : Bool
  mga_axis : MgaAxis
  mga_weighting : MgaWeighting
  iteration_limit : Nat
  time_limit_hrs : ℚ
  cost_epsilon : ℚ
  solve_count : Nat
  orig_label : String
deriving DecidableEq, Repr

/-- Embedding of `MgaSequencer.__init__` (lines 60-140).  Returns the
constructor's side effects in order, next to either the constructed
state or the raised exception.  The input/output database equality
check (lines 63-64) comes first, before any side effect; the sqlite
connection is opened at line 65; the three export flags are forced off
(lines 72-80); the solver dispatch (lines 85-109) assigns `opt`,
`std_opt` and `options` only in the branches that mention them; the
MGA knobs are read with their literal defaults (lines 113-124); the
writer clears indexed scenarios at line 134. -/
def MgaSequencer.init (config : TemoaConfig) :
    List InitEffect × Except MgaError MgaSequencer :=
  if ¬ (config.input_database = config.output_database) then
    ([], .error (.notImplementedError "MGA assumes input and output databases are same"))
  else
    let effects0 : List InitEffect := [.openConnection config.input_database]
    let effects1 := effects0 ++
      (if ¬ config.source_trace then
        [InitEffect.logWarning "Performing MGA runs without source trace."]
      else [])
    let config' : TemoaConfig :=
      { config with save_lp_file := false, save_duals := false, save_excel := false }
    let triple : Option SolverHandle × Option SolverHandle × Option (List (String × Nat)) :=
      if config.solver_name = "appsi_highs" then
        (some .appsiHighs, some .appsiHighs, none)
      else if config.solver_name = "gurobi" then
        (some .gurobi, none, some gurobi_options)
      else if config.solver_name = "cbc" then
        (some .cbc, none, some [])
      else
        (none, none, none)
    let seq : MgaSequencer :=
      { con_db := config.input_database
        config := config'
        opt := triple.1
        std_opt := triple.2.1
        options := triple.2.2
        internal_stop := false
        mga_axis := (config.mga_inputs.axis).getD .techCategoryActivity
        mga_weighting := (config.mga_inputs.weighting).getD .hullExpansion
        iteration_limit := (config.mga_inputs.iteration_limit).getD 20
        time_limit_hrs := (config.mga_inputs.time_limit_hrs).getD 12
        cost_epsilon := (config.mga_inputs.cost_epsilon).getD (5 / 100)
        solve_count := 0
        orig_label := config.scenario }
    (effects1 ++ [.clearIndexedScenarios], .ok seq)

/-- Solver termination-condition vocabulary (external solver boundary). -/
inductive TerminationCondition
  | optimal
  | infeasible
  | unbounded
  | maxTimeLimit
  | unknownStatus
deriving DecidableEq, Repr

/-- The state of the working model, as far as the sequencer transforms
it in `start`: whether the `TotalCost` objective component is still
present, and the bound of the `cost_cap` constraint, if added. -/
structure ModelState where
  total_cost_objective : Bool
  cost_cap : Option ℚ
deriving DecidableEq, Repr

/-- Observable events of the straight-line part of `start`
(lines 142-232), in program order. -/
inductive StartEvent
  | loadData
  | baseSolve (status : TerminationCondition)
  | writeResults
  | addCostCap (bound : ℚ)
  | delTotalCost
  | getManager
  | buildKwargs
  | workerStart (i : Nat)
deriving DecidableEq, Repr

/-- `num_workers = 6` (line 215). -/
def num_workers : Nat := 6

/-- `work_queue = Queue(5)` (line 206). -/
def work_queue_capacity : Nat := 5

/-- The orchestrator state handed to the main loop after the preamble. -/
structure PreLoop where
  model : ModelState
  solve_count : Nat
  internal_stop : Bool
  iteration_limit : Nat
  cost_epsilon : ℚ
deriving DecidableEq, Repr

/-- Embedding of `MgaSequencer.start` up to the main loop
(lines 142-232), given the base solve's outcome (`status`, the solver's
termination condition, and `tot_cost`, the value of
`instance.TotalCost` after the solve).  The trace records, in order:
the data load (lines 152-156); the base solve `self.opt.solve`
(line 161, an `AttributeError` if `self.opt` was never assigned);
`solve_count` incremented (line 166); the unconditional
`writer.write_results` (line 175) — the commented-out abort on a
non-optimal status (lines 171-173) does not execute; the `cost_cap`
constraint with bound `(1 + cost_epsilon) * tot_cost` (lines 183-185);
deletion of the `TotalCost` objective (line 189); manager creation
(lines 195-202); the worker kwargs built from `self.options`
(line 214, an `AttributeError` if `options` was never assigned); and
the start of the `num_workers` workers (lines 216-227). -/
def startPreamble (seq : MgaSequencer) (status : TerminationCondition) (tot_cost : ℚ) :
    List StartEvent × Except MgaError PreLoop :=
  match seq.opt with
  | none => ([StartEvent.loadData], .error (.attributeError "opt"))
  | some _ =>
    let bound : ℚ := (1 + seq.cost_epsilon) * tot_cost
    let evs : List StartEvent :=
      [.loadData, .baseSolve status, .writeResults, .addCostCap bound, .delTotalCost,
       .getManager]
    match seq.options with
    | none => (evs, .error (.attributeError "options"))
    | some _ =>
      (evs ++ [.buildKwargs] ++ (List.range num_workers).map StartEvent.workerStart,
       .ok { model := { total_cost_objective := false, cost_cap := some bound }
             solve_count := seq.solve_count + 1
             internal_stop := seq.internal_stop
             iteration_limit := seq.iteration_limit
             cost_epsilon := seq.cost_epsilon })

/-- A value produced by `next(instance_generator)`: either a model
instance (identified by an id) or the string sentinel `'waiting'`. -/
inductive GenItem
  | model (id : Nat)
  | waiting
deriving DecidableEq, Repr

/-- The orchestrator-side state of the main loop (lines 231-258).
`cur` is the local variable `instance`; `gen_idx` counts the calls of
`next(instance_generator)` made so far minus one (so `cur` is the
`gen_idx`-th element of the generator's stream); `work_queue` and
`result_queue` are the channel contents (front of list = next item
out); `processed` lists the results ingested so far, in order. -/
structure LoopState where
  cur : GenItem
  gen_idx : Nat
  work_queue : List Nat
  result_queue : List Nat
  model : ModelState
  solve_count : Nat
  internal_stop : Bool
  processed : List Nat
deriving DecidableEq, Repr

/-- What the worker pool did, asynchronously, around one execution of
the loop body: `taken` work items were removed from the front of the
work queue before the orchestrator's `put`; `arrived` results were
appended to the result channel by the time the orchestrator's `get`
executes (including any that arrive while the `get` blocks);
`elapsed_hrs` is the wall-clock time elapsed since the run started, at
the start of the round. -/
structure RoundEnv where
  taken : Nat
  arrived : List Nat
  elapsed_hrs : ℚ
deriving DecidableEq, Repr

/-- The submission part of the loop body (lines 239-246): if `instance`
is the `'waiting'` sentinel, do nothing; otherwise attempt
`work_queue.put(instance, block=False)`, which raises `queue.Full` on
a full channel (capacity `work_queue_capacity`), in which case the
`except` clause leaves `instance` and the generator untouched; only
after a successful put is `next(instance_generator)` called. -/
def submitPhase (gen : Nat → GenItem) (wq : List Nat) (cur : GenItem) (gen_idx : Nat) :
    List Nat × GenItem × Nat :=
  match cur with
  | .waiting => (wq, cur, gen_idx)
  | .model m =>
    if wq.length < work_queue_capacity then
      (wq ++ [m], gen (gen_idx + 1), gen_idx + 1)
    else
      (wq, cur, gen_idx)

/-- Embedding of one execution of the main loop body (lines 238-258),
in environment `env`, with `gen` the generator's stream and `L` the
iteration limit.  After the submission part, the orchestrator calls
`result_queue.get()` (line 248) with its default `block=True`: if the
result channel holds no result and none ever arrives, the call blocks
forever and the round never completes — `none`.  (The
`except Empty` handler at lines 249-250 is unreachable: a blocking
`get` without a timeout never raises `Empty`.)  When a result is
obtained, it is ingested (lines 252-253), `solve_count` is
incremented and compared against the iteration limit (lines 255-258),
setting `internal_stop` when `solve_count >= L`. -/
def loopRound (gen : Nat → GenItem) (env : RoundEnv) (L : Nat) (s : LoopState) :
    Option LoopState :=
  let wq0 := s.work_queue.drop env.taken
  let sub := submitPhase gen wq0 s.cur s.gen_idx
  match s.result_queue ++ env.arrived with
  | [] => none
  | r :: rest =>
    let new_count := s.solve_count + 1
    some { cur := sub.2.1
           gen_idx := sub.2.2
           work_queue := sub.1
           result_queue := rest
           model := s.model
           solve_count := new_count
           internal_stop := s.internal_stop || decide (L ≤ new_count)
           processed := s.processed ++ [r] }

/-- The loop guard of line 233: `vector_manager.stop_resolving() or
self.internal_stop` stops the loop. -/
def stoppingState (stop_resolving : Bool) (s : LoopState) : Bool :=
  stop_resolving || s.internal_stop

/-- Iterate the loop body under the guard, one `RoundEnv` per round
(the list doubles as fuel).  `stopPred` is the generator's
`stop_resolving` predicate, a function of what has been processed. -/
def loopRun (gen : Nat → GenItem) (stopPred : LoopState → Bool) (L : Nat)
    (envs : List RoundEnv) (s : LoopState) : Option LoopState :=
  match envs with
  | [] => some s
  | e :: es =>
    if stoppingState (stopPred s) s then some s
    else
      match loopRound gen e L s with
      | none => none
      | some s' => loopRun gen stopPred L es s'

/-- One worker record held by the orchestrator: its number, its
liveness, and how many shutdown sentinels it has consumed. -/
structure WorkerRec where
  worker_number : Nat
  alive : Bool
  sentinels_received : Nat
deriving DecidableEq, Repr

/-- The three channels closed during shutdown (lines 293-301). -/
inductive ChannelName
  | logChannel
  | workChannel
  | resultChannel
deriving DecidableEq, Repr

/-- Observable events of the shutdown block (lines 260-301). -/
inductive ShutdownEvent
  | putSentinel
  | joinWorker (i : Nat)
  | closeChannel (c : ChannelName)
deriving DecidableEq, Repr

/-- Modelled from the spec: `worker.py` is not among the sources.  Per
the spec's Worker contract, a worker block-receives from the work
channel and, on reading the sentinel, terminates cleanly with no
further channel access; so `w.join()` returns exactly when worker `w`
has consumed one sentinel and exited, after which `w.is_alive()` is
false. -/
def joinWorker (w : WorkerRec) : WorkerRec :=
  { w with alive := false, sentinels_received := w.sentinels_received + 1 }

/-- Embedding of the shutdown block of `start` (lines 260-301): one
sentinel `work_queue.put(None)` per worker (lines 262-263), then a
`join` of every worker (lines 287-289), then — only after all joins —
the closes of the log, work and result channels (lines 293-301). -/
def shutdownProtocol (ws : List WorkerRec) : List WorkerRec × List ShutdownEvent :=
  let put_events := ws.map (fun _ => ShutdownEvent.putSentinel)
  let join_events := ws.map (fun w => ShutdownEvent.joinWorker w.worker_number)
  let close_events := [ShutdownEvent.closeChannel .logChannel,
                       ShutdownEvent.closeChannel .workChannel,
                       ShutdownEvent.closeChannel .resultChannel]
  (ws.map joinWorker, put_events ++ join_events ++ close_events)

/-- Recognizer for the sentinel-put event. -/
def isPut : ShutdownEvent → Bool
  | .putSentinel => true
  | _ => false

/-- Recognizer for a channel-close event. -/
def isClose : ShutdownEvent → Bool
  | .closeChannel _ => true
  | _ => false

/-- Recognizer for the cost-cap event of the `start` trace. -/
def isAddCostCap : StartEvent → Bool
  | .addCostCap _ => true
  | _ => false

/-- Recognizer for a worker-start event of the `start` trace. -/
def isWorkerStart : StartEvent → Bool
  | .workerStart _ => true
  | _ => false

/-- Whether an `Except` value is a success. -/
def exceptOk {ε α : Type} : Except ε α → Bool
  | .ok _ => true
  | .error _ => false

/-- Replace the wall-clock reading of a round's environment. -/
def setElapsed (t : ℚ) (e : RoundEnv) : RoundEnv :=
  { e with elapsed_hrs := t }

/-- The generator stream that yields model instance `n` at pull `n`
(never the `'waiting'` sentinel). -/
def natGen : Nat → GenItem := fun n => GenItem.model n

/-- The working model after the cost-relaxation step of a run whose
base solve returned 1000 with the default epsilon: cap 1050, objective
removed. -/
def relaxedModel : ModelState := { total_cost_objective := false, cost_cap := some 1050 }

/-- The loop state right after the preamble and the first
`next(instance_generator)` of line 232: one base solve counted, no
result ingested yet, both channels empty. -/
def baseLoopState : LoopState :=
  { cur := .model 0, gen_idx := 0, work_queue := [], result_queue := [],
    model := relaxedModel, solve_count := 1, internal_stop := false, processed := [] }

/-- Counting invariant of the main loop: the solve count exceeds the
number of ingested results by exactly the base solve, and is bounded
through the iteration-limit flag (`L` the iteration limit). -/
def loopCountInv (L : Nat) (s : LoopState) : Prop :=
  s.solve_count = 1 + s.processed.length ∧
  (s.internal_stop = false → s.solve_count ≤ max (L - 1) 1) ∧
  (s.internal_stop = true → s.solve_count ≤ max (L - 1) 1 + 1)

/-- Round environments for a run in which a worker takes an instance
and delivers one result every round. -/
def c2_envs : List RoundEnv := [⟨1, [101], 0⟩, ⟨1, [102], 0⟩, ⟨1, [103], 0⟩, ⟨1, [104], 0⟩]

/-- The state in which the iteration-limit-3 run of `c2_envs` halts. -/
def c2_final : LoopState :=
  { cur := .model 2, gen_idx := 2, work_queue := [1], result_queue := [],
    model := relaxedModel, solve_count := 3, internal_stop := true, processed := [101, 102] }

/-- Round environments for a run whose wall clock reads 1000 hours at
every round — far beyond the default 12-hour limit. -/
def c3_envs : List RoundEnv := [⟨1, [201], 1000⟩, ⟨1, [202], 1000⟩, ⟨1, [203], 1000⟩, ⟨1, [204], 1000⟩]

/-- A well-formed configuration: one database for input and output,
the gurobi solver, no explicit MGA knobs (all defaults). -/
def gurobiConfig : TemoaConfig :=
  { input_database := "data.sqlite", output_database := "data.sqlite", source_trace := true,
    save_lp_file := false, save_duals := false, save_excel := false, scenario := "mga",
    solver_name := "gurobi",
    mga_inputs := { axis := none, weighting := none, iteration_limit := none,
                    time_limit_hrs := none, cost_epsilon := none },
    silent := true }

/-- The sequencer state `MgaSequencer.init gurobiConfig` constructs. -/
def gurobiSequencer : MgaSequencer :=
  { con_db := "data.sqlite", config := gurobiConfig, opt := some .gurobi, std_opt := none,
    options := some gurobi_options, internal_stop := false,
    mga_axis := .techCategoryActivity, mga_weighting := .hullExpansion,
    iteration_limit := 20, time_limit_hrs := 12, cost_epsilon := 5 / 100,
    solve_count := 0, orig_label := "mga" }

/-- `gurobiConfig` with the recognized solver name `appsi_highs`. -/
def highsConfig : TemoaConfig := { gurobiConfig with solver_name := "appsi_highs" }

/-- `gurobiConfig` with a solver name outside the three recognized
names. -/
def unknownSolverConfig : TemoaConfig := { gurobiConfig with solver_name := "glpk" }

/-- The sequencer state constructed for the `appsi_highs` solver:
`opt` assigned, `options` never assigned. -/
def highsSequencer : MgaSequencer :=
  { gurobiSequencer with
    config := highsConfig, opt := some .appsiHighs,
    std_opt := some .appsiHighs, options := none }

/-- The sequencer state constructed for an unrecognized solver name:
neither `opt` nor `options` assigned. -/
def noOptSequencer : MgaSequencer :=
  { gurobiSequencer with
    config := unknownSolverConfig, opt := none,
    std_opt := none, options := none }

/-- A configuration whose input and output databases differ. -/
def mismatchedConfig : TemoaConfig :=
  { gurobiConfig with input_database := "a.sqlite", output_database := "b.sqlite" }

/-- A loop state whose work channel is full (five queued instances)
while a sixth candidate is in hand. -/
def c6_state : LoopState :=
  { cur := .model 7, gen_idx := 4, work_queue := [10, 11, 12, 13, 14], result_queue := [],
    model := relaxedModel, solve_count := 2, internal_stop := false, processed := [90] }

/-- The state after one round of `c6_state` in which the channel stays
full: the candidate is retained and the generator not advanced. -/
def c6_final : LoopState :=
  { cur := .model 7, gen_idx := 4, work_queue := [10, 11, 12, 13, 14], result_queue := [],
    model := relaxedModel, solve_count := 3, internal_stop := false, processed := [90, 91] }

/-- A loop state in which the last pull of the generator returned the
`'waiting'` sentinel. -/
def c7_state : LoopState :=
  { cur := .waiting, gen_idx := 3, work_queue := [], result_queue := [],
    model := relaxedModel, solve_count := 1, internal_stop := false, processed := [] }

/-- A two-worker pool, alive, with no sentinels consumed. -/
def c4_workers : List WorkerRec := [⟨0, true, 0⟩, ⟨1, true, 0⟩]

/-! ## Helper lemmas -/

/-- One completed loop round started with the iteration-limit flag
clear preserves the counting invariant. -/
theorem loopRound_countInv (gen : Nat → GenItem) (e : RoundEnv) (L : Nat)
    (s s' : LoopState) (hstop : s.internal_stop = false) (hinv : loopCountInv L s)
    (hr : loopRound gen e L s = some s') : loopCountInv L s' := by
  rcases hinv with ⟨h1, h2, _⟩
  cases hq : s.result_queue ++ e.arrived with
  | nil => simp [loopRound, hq] at hr
  | cons r rest =>
    simp only [loopRound, hq] at hr
    obtain rfl := Option.some.inj hr
    refine ⟨by simp only [List.length_append, List.length_cons, List.length_nil]; omega, ?_, ?_⟩
    · intro hf
      simp only [hstop, Bool.false_or, decide_eq_false_iff_not, not_le] at hf
      have hb := h2 hstop
      simp only
      omega
    · intro _
      have hb := h2 hstop
      simp only
      omega

/-- The main loop preserves the counting invariant. -/
theorem loopRun_countInv (gen : Nat → GenItem) (p : LoopState → Bool) (L : Nat) :
    ∀ (envs : List RoundEnv) (s s' : LoopState), loopCountInv L s →
      loopRun gen p L envs s = some s' → loopCountInv L s' := by
  intro envs
  induction envs with
  | nil =>
    intro s s' h hrun
    simp only [loopRun] at hrun
    obtain rfl := Option.some.inj hrun
    exact h
  | cons e es ih =>
    intro s s' h hrun
    simp only [loopRun] at hrun
    cases hg : stoppingState (p s) s with
    | true =>
      rw [hg] at hrun
      simp only [if_true] at hrun
      obtain rfl := Option.some.inj hrun
      exact h
    | false =>
      rw [hg] at hrun
      simp only [Bool.false_eq_true, if_false] at hrun
      have hstop : s.internal_stop = false := by
        simp only [stoppingState, Bool.or_eq_false_iff] at hg
        exact hg.2
      cases hr : loopRound gen e L s with
      | none => rw [hr] at hrun; cases hrun
      | some s1 =>
        rw [hr] at hrun
        exact ih s1 s' (loopRound_countInv gen e L s s1 hstop h hr) hrun

/-- `loopRound` reads only the `taken` and `arrived` components of its
environment, never the wall clock. -/
theorem loopRound_setElapsed (gen : Nat → GenItem) (t : ℚ) (e : RoundEnv) (L : Nat)
    (s : LoopState) : loopRound gen (setElapsed t e) L s = loopRound gen e L s := rfl

/-! ## Claims -/

/-- C1: the claim states that in every round of the ITERATE loop the
read of the result channel is non-blocking — on an empty channel it
returns immediately with `next_result = None` and the round proceeds.
The code instead calls `result_queue.get()` at line 248 with its
default `block=True`, so the `except Empty` handler of lines 249-250
is unreachable and a round that reaches the `get` with an empty result
channel blocks until a result arrives: evaluated at a state whose
result channel is empty (and with no result arriving), the round does
not complete (`none`), although the loop was not in a stopping state. -/
theorem c1_result_read_blocks :
    loopRound natGen ⟨0, [], 2⟩ 20 baseLoopState = none ∧
    baseLoopState.result_queue = [] ∧
    stoppingState false baseLoopState = false :=
  ⟨rfl, rfl, rfl⟩

/-- C2, counterexample: with iteration limit 3 and a generator whose
stop predicate is always false, the run from the post-base-solve state
(`solve_count = 1`) halts with `internal_stop = true` after exactly 2
ingested results, not 3: the base solve already consumed one count, so
the second ingestion raises `solve_count` to 3 ≥ 3. -/
theorem c2_counterexample :
    (loopRun natGen (fun _ => false) 3 c2_envs baseLoopState).map
      (fun s => (s.processed.length, s.internal_stop)) = some (2, true) := by
  decide

/-- C2, amended: for every iteration limit L ≥ 1, the main loop
ingests at most L results before halting on the iteration-limit flag
(in fact at most max(L-1,1), since the base solve consumed one count);
with iteration limit 3 and a never-stopping generator, exactly 2
non-base iterations are recorded before the Stopping State becomes
true. -/
theorem c2_iteration_limit :
    (∀ (gen : Nat → GenItem) (p : LoopState → Bool) (L : Nat) (envs : List RoundEnv)
        (s s' : LoopState), 1 ≤ L → s.solve_count = 1 → s.processed = [] →
        s.internal_stop = false → loopRun gen p L envs s = some s' →
        s'.processed.length ≤ L) ∧
    (loopRun natGen (fun _ => false) 3 c2_envs baseLoopState).map
      (fun s => s.processed.length) = some 2 := by
  constructor
  · intro gen p L envs s s' hL h1 h2 h3 hrun
    have hinv : loopCountInv L s := by
      refine ⟨by simp [h1, h2], ?_, ?_⟩
      · intro _
        rw [h1]
        omega
      · intro hc
        rw [h3] at hc
        cases hc
    obtain ⟨hc, hf, ht⟩ := loopRun_countInv gen p L envs s s' hinv hrun
    cases hflag : s'.internal_stop
    · have := hf hflag
      omega
    · have := ht hflag
      omega
  · decide

/-- C2, witness: the amended bound applied to the iteration-limit-3
run, which halts in `c2_final` with 2 ≤ 3 ingested results. -/
theorem c2_iteration_limit_witness :
    loopRun natGen (fun _ => false) 3 c2_envs baseLoopState = some c2_final ∧
    c2_final.processed.length ≤ 3 :=
  ⟨by decide,
   c2_iteration_limit.1 natGen (fun _ => false) 3 c2_envs baseLoopState c2_final
     (by decide) rfl rfl rfl (by decide)⟩

/-- C3, counterexample: the wall-clock limit is never consulted by the
main loop.  In a run whose every round reads 1000 elapsed hours — far
beyond the configured default limit of 12 hours — the loop does not
terminate at the next iteration boundary: it completes all four
rounds and its Stopping State is still false at the end. -/
theorem c3_counterexample :
    (loopRun natGen (fun _ => false) 20 c3_envs baseLoopState).map
      (fun s => (s.processed.length, s.internal_stop)) = some (4, false) ∧
    (∀ e ∈ c3_envs, (12 : ℚ) < e.elapsed_hrs) := by
  constructor
  · decide
  · decide

/-- C3, amended: `time_limit_hrs` is read from the configuration once,
at construction (default 12), but it is not an input to the combined
Stopping State: the main loop never reads the wall clock, so the run
is invariant under arbitrary reassignment of every round's elapsed
time, and elapsed wall-clock time never terminates the loop. -/
theorem c3_time_limit_unused :
    (∀ cfg : TemoaConfig, cfg.input_database = cfg.output_database →
        ((MgaSequencer.init cfg).2.map (fun seq => seq.time_limit_hrs)) =
          .ok (cfg.mga_inputs.time_limit_hrs.getD 12)) ∧
    (∀ (gen : Nat → GenItem) (p : LoopState → Bool) (L : Nat) (envs : List RoundEnv)
        (s : LoopState) (t : ℚ),
        loopRun gen p L (envs.map (setElapsed t)) s = loopRun gen p L envs s) := by
  constructor
  · intro cfg h
    simp [MgaSequencer.init, h, Except.map]
  · intro gen p L envs
    induction envs with
    | nil => intro s t; rfl
    | cons e es ih =>
      intro s t
      simp only [List.map_cons, loopRun, loopRound_setElapsed]
      cases stoppingState (p s) s
      · simp only [Bool.false_eq_true, if_false]
        cases loopRound gen e L s
        · rfl
        · exact ih _ t
      · rfl

/-- C3, witness: the amended statement at the default configuration
(no explicit limit, so 12) and at the concrete 1000-hour run. -/
theorem c3_time_limit_unused_witness :
    ((MgaSequencer.init gurobiConfig).2.map (fun seq => seq.time_limit_hrs)) = .ok 12 ∧
    loopRun natGen (fun _ => false) 20 (c3_envs.map (setElapsed 0)) baseLoopState =
      loopRun natGen (fun _ => false) 20 c3_envs baseLoopState :=
  ⟨c3_time_limit_unused.1 gurobiConfig rfl,
   c3_time_limit_unused.2 natGen (fun _ => false) 20 c3_envs baseLoopState 0⟩

/-- C7: the claim states that after a pull returns the `'waiting'`
sentinel, pulling resumes once a result has been ingested.  In the
code the only `next(instance_generator)` call of the loop sits inside
the `if instance != 'waiting'` branch (lines 240-243), so once
`instance` is `'waiting'` it is never reassigned: evaluated over two
rounds in which results arrive and are ingested (`processed` grows to
`[55, 56]`), the current item is still the sentinel, the generator
was never advanced (`gen_idx` still 3) and nothing was submitted. -/
theorem c7_wait_sentinel_permanent :
    ((loopRound natGen ⟨0, [55], 1⟩ 20 c7_state).bind
        (loopRound natGen ⟨0, [56], 1⟩ 20)).map
      (fun s => (s.cur, s.gen_idx, s.work_queue, s.processed)) =
      some (GenItem.waiting, 3, [], [55, 56]) := by
  decide

/-- C8: a configuration whose input and output databases differ makes
the constructor raise `NotImplementedError` before any side effect:
the effect list is empty — no connection opened, no prior-run records
cleared (lines 63-65 run before everything else in `__init__`). -/
theorem c8_mismatched_databases_fatal (cfg : TemoaConfig)
    (h : cfg.input_database ≠ cfg.output_database) :
    MgaSequencer.init cfg =
      ([], .error (.notImplementedError "MGA assumes input and output databases are same")) := by
  unfold MgaSequencer.init
  rw [if_pos h]

/-- C8, witness: the fatal precondition at a concrete mismatched
configuration. -/
theorem c8_mismatched_databases_fatal_witness :
    MgaSequencer.init mismatchedConfig =
      ([], .error (.notImplementedError "MGA assumes input and output databases are same")) :=
  c8_mismatched_databases_fatal mismatchedConfig (by decide)

/-- C4: for any pool of workers, the shutdown protocol puts exactly
one sentinel per worker into the work channel (lines 262-263), joins
every worker — after which each has consumed exactly one sentinel and
reports not-alive — and closes the log, work and result channels only
after all joins: in the event trace the three closes are exactly the
events after position `2·N`, every earlier event being a put or a
join.  No worker remains alive when the protocol returns. -/
theorem c4_shutdown_protocol (ws : List WorkerRec)
    (h : ∀ w ∈ ws, w.sentinels_received = 0) :
    (((shutdownProtocol ws).2.filter isPut).length = ws.length) ∧
    (∀ w ∈ (shutdownProtocol ws).1, w.alive = false ∧ w.sentinels_received = 1) ∧
    ((shutdownProtocol ws).2.drop (2 * ws.length) =
      [ShutdownEvent.closeChannel .logChannel, ShutdownEvent.closeChannel .workChannel,
       ShutdownEvent.closeChannel .resultChannel]) ∧
    (∀ e ∈ (shutdownProtocol ws).2.take (2 * ws.length), isClose e = false) := by
  have hput : (ws.map fun _ => ShutdownEvent.putSentinel).filter isPut =
      ws.map fun _ => ShutdownEvent.putSentinel :=
    List.filter_eq_self.mpr (by
      intro a ha
      obtain ⟨w, _, rfl⟩ := List.mem_map.mp ha
      rfl)
  have hjoin : (ws.map fun w => ShutdownEvent.joinWorker w.worker_number).filter isPut
      = [] := by
    rw [List.filter_eq_nil_iff]
    intro a ha
    obtain ⟨w, _, rfl⟩ := List.mem_map.mp ha
    simp [isPut]
  have hlen2 : ((ws.map fun _ => ShutdownEvent.putSentinel) ++
      ws.map fun w => ShutdownEvent.joinWorker w.worker_number).length = 2 * ws.length := by
    simp only [List.length_append, List.length_map]
    omega
  refine ⟨?_, ?_, ?_, ?_⟩
  · simp only [shutdownProtocol, List.filter_append, hput, hjoin]
    simp [isPut]
  · intro w hw
    simp only [shutdownProtocol] at hw
    obtain ⟨w0, hw0, rfl⟩ := List.mem_map.mp hw
    exact ⟨rfl, by simp [joinWorker, h w0 hw0]⟩
  · simp only [shutdownProtocol]
    exact List.drop_left' hlen2
  · intro e he
    simp only [shutdownProtocol] at he
    rw [List.take_left' hlen2] at he
    rcases List.mem_append.mp he with h1 | h2
    · obtain ⟨w, _, rfl⟩ := List.mem_map.mp h1
      rfl
    · obtain ⟨w, _, rfl⟩ := List.mem_map.mp h2
      rfl

/-- C4, witness: the shutdown protocol on a concrete two-worker pool. -/
theorem c4_shutdown_protocol_witness :
    (((shutdownProtocol c4_workers).2.filter isPut).length = c4_workers.length) ∧
    (∀ w ∈ (shutdownProtocol c4_workers).1, w.alive = false ∧ w.sentinels_received = 1) ∧
    ((shutdownProtocol c4_workers).2.drop (2 * c4_workers.length) =
      [ShutdownEvent.closeChannel .logChannel, ShutdownEvent.closeChannel .workChannel,
       ShutdownEvent.closeChannel .resultChannel]) ∧
    (∀ e ∈ (shutdownProtocol c4_workers).2.take (2 * c4_workers.length),
      isClose e = false) :=
  c4_shutdown_protocol c4_workers (by decide)

/-- C5: after a base solve returning `tot_cost`, the `start` preamble
adds the cost-cap constraint with bound `(1 + cost_epsilon) * tot_cost`
exactly once, strictly before any worker is started (the trace splits
into a worker-free prefix holding the single cost-cap event and a
suffix with no further cost-cap event); the resulting working model
has the cap installed and the `TotalCost` objective removed; and no
round of the main loop ever modifies the working model again — the
transformation is never reversed during the run. -/
theorem c5_cost_cap_once (seq : MgaSequencer) (status : TerminationCondition)
    (tot_cost : ℚ) (h : seq.opt.isSome) :
    (∃ pre post, (startPreamble seq status tot_cost).1 = pre ++ post ∧
        (∀ e ∈ pre, isWorkerStart e = false) ∧
        pre.filter isAddCostCap =
          [StartEvent.addCostCap ((1 + seq.cost_epsilon) * tot_cost)] ∧
        post.filter isAddCostCap = []) ∧
    (∀ p, (startPreamble seq status tot_cost).2 = .ok p →
        p.model = { total_cost_objective := false
                    cost_cap := some ((1 + seq.cost_epsilon) * tot_cost) }) ∧
    (∀ (gen : Nat → GenItem) (env : RoundEnv) (L : Nat) (s s' : LoopState),
        loopRound gen env L s = some s' → s'.model = s.model) := by
  rcases hopt : seq.opt with _ | o
  · rw [hopt] at h
    simp at h
  refine ⟨?_, ?_, ?_⟩
  · rcases hops : seq.options with _ | os
    · refine ⟨[.loadData, .baseSolve status, .writeResults,
          .addCostCap ((1 + seq.cost_epsilon) * tot_cost), .delTotalCost, .getManager],
          [], ?_, ?_, ?_, ?_⟩
      · simp [startPreamble, hopt, hops]
      · intro e he
        simp only [List.mem_cons, List.not_mem_nil, or_false] at he
        rcases he with rfl | rfl | rfl | rfl | rfl | rfl <;> rfl
      · rfl
      · rfl
    · refine ⟨[.loadData, .baseSolve status, .writeResults,
          .addCostCap ((1 + seq.cost_epsilon) * tot_cost), .delTotalCost, .getManager,
          .buildKwargs],
          (List.range num_workers).map StartEvent.workerStart, ?_, ?_, ?_, ?_⟩
      · simp [startPreamble, hopt, hops]
      · intro e he
        simp only [List.mem_cons, List.not_mem_nil, or_false] at he
        rcases he with rfl | rfl | rfl | rfl | rfl | rfl | rfl <;> rfl
      · rfl
      · rfl
  · intro p hp
    rcases hops : seq.options with _ | os
    · simp [startPreamble, hopt, hops] at hp
    · simp only [startPreamble, hopt, hops] at hp
      obtain rfl := Except.ok.inj hp
      rfl
  · intro gen env L s s' hr
    cases hq : s.result_queue ++ env.arrived with
    | nil => simp [loopRound, hq] at hr
    | cons r rest =>
      simp only [loopRound, hq] at hr
      obtain rfl := Option.some.inj hr
      rfl

/-- C5, witness: the end-to-end scenario — base solve optimal at 1000,
epsilon 0.05 — produces the cost-cap bound 1050, installed before the
workers start and never reversed. -/
theorem c5_cost_cap_once_witness :
    (∃ pre post, (startPreamble gurobiSequencer .optimal 1000).1 = pre ++ post ∧
        (∀ e ∈ pre, isWorkerStart e = false) ∧
        pre.filter isAddCostCap = [StartEvent.addCostCap 1050] ∧
        post.filter isAddCostCap = []) ∧
    (∀ p, (startPreamble gurobiSequencer .optimal 1000).2 = .ok p →
        p.model = { total_cost_objective := false, cost_cap := some 1050 }) := by
  have h := c5_cost_cap_once gurobiSequencer .optimal 1000 rfl
  have hb : (1 + gurobiSequencer.cost_epsilon) * 1000 = (1050 : ℚ) := by
    show (1 + (5 / 100 : ℚ)) * 1000 = 1050
    norm_num
  constructor
  · rw [← hb]
    exact h.1
  · rw [show ({ total_cost_objective := false, cost_cap := some 1050 } : ModelState) =
        { total_cost_objective := false
          cost_cap := some ((1 + gurobiSequencer.cost_epsilon) * 1000) } by rw [hb]]
    exact h.2.1

/-- C6: in every round, the submission to the work channel is the
non-blocking `put(instance, block=False)` of line 242 and a full
channel never loses the candidate: when the channel (after the
workers' removals) is at capacity, the `queue.Full` path leaves the
current candidate and the generator position unchanged and enqueues
nothing, so the same candidate is re-submitted in a later round; and
`next(instance_generator)` is called — advancing the generator — only
after a put that succeeded. -/
theorem c6_full_channel_retains (gen : Nat → GenItem) (env : RoundEnv) (L : Nat)
    (s : LoopState) (m : Nat) (hcur : s.cur = .model m) :
    (work_queue_capacity ≤ (s.work_queue.drop env.taken).length →
      ∀ s', loopRound gen env L s = some s' →
        s'.cur = .model m ∧ s'.gen_idx = s.gen_idx ∧
        s'.work_queue = s.work_queue.drop env.taken) ∧
    ((s.work_queue.drop env.taken).length < work_queue_capacity →
      ∀ s', loopRound gen env L s = some s' →
        s'.work_queue = s.work_queue.drop env.taken ++ [m] ∧
        s'.gen_idx = s.gen_idx + 1 ∧ s'.cur = gen (s.gen_idx + 1)) := by
  constructor
  · intro hfull s' hr
    have hnlt : ¬ ((s.work_queue.drop env.taken).length < work_queue_capacity) :=
      not_lt.mpr hfull
    cases hq : s.result_queue ++ env.arrived with
    | nil => simp [loopRound, hq] at hr
    | cons r rest =>
      simp only [loopRound, hq] at hr
      obtain rfl := Option.some.inj hr
      simp only [List.length_drop] at hnlt
      refine ⟨?_, ?_, ?_⟩ <;> simp [submitPhase, hcur, hnlt]
  · intro hlt s' hr
    cases hq : s.result_queue ++ env.arrived with
    | nil => simp [loopRound, hq] at hr
    | cons r rest =>
      simp only [loopRound, hq] at hr
      obtain rfl := Option.some.inj hr
      simp only [List.length_drop] at hlt
      refine ⟨?_, ?_, ?_⟩ <;> simp [submitPhase, hcur, hlt]

/-- C6, witness: a round whose work channel is full (five queued
instances): the round completes on an ingested result while candidate
7 is retained, the generator is not advanced, and nothing is
enqueued. -/
theorem c6_full_channel_retains_witness :
    loopRound natGen ⟨0, [91], 1⟩ 20 c6_state = some c6_final ∧
    (c6_final.cur = .model 7 ∧ c6_final.gen_idx = c6_state.gen_idx ∧
      c6_final.work_queue = c6_state.work_queue.drop 0) :=
  ⟨by decide,
   (c6_full_channel_retains natGen ⟨0, [91], 1⟩ 20 c6_state 7 rfl).1 (by decide) c6_final
     (by decide)⟩

/-- C9: whatever termination status the base solve returns — optimal
or not — the preamble records the result unconditionally right after
the solve (`write_results`, line 175, follows line 161 with no status
check in between: the abort of lines 171-173 is commented out) and
the run proceeds to the cost-relaxation step; when the worker options
are present the whole preamble succeeds, so the iterative loop is
reached regardless of the base solve's status. -/
theorem c9_base_recorded_unconditionally (seq : MgaSequencer)
    (status : TerminationCondition) (tot_cost : ℚ) (h : seq.opt.isSome) :
    (startPreamble seq status tot_cost).1.take 6 =
      [.loadData, .baseSolve status, .writeResults,
       .addCostCap ((1 + seq.cost_epsilon) * tot_cost), .delTotalCost, .getManager] ∧
    (seq.options.isSome → exceptOk (startPreamble seq status tot_cost).2 = true) := by
  rcases hopt : seq.opt with _ | o
  · rw [hopt] at h
    simp at h
  constructor
  · rcases hops : seq.options with _ | os
    · simp only [startPreamble, hopt, hops]
      rfl
    · simp only [startPreamble, hopt, hops]
      rfl
  · intro h2
    rcases hops : seq.options with _ | os
    · rw [hops] at h2
      simp at h2
    · simp only [startPreamble, hopt, hops]
      rfl

/-- C9, witness: a base solve that terminates infeasible is still
written out and the preamble still succeeds. -/
theorem c9_base_recorded_unconditionally_witness :
    (startPreamble gurobiSequencer .infeasible 1000).1.take 6 =
      [.loadData, .baseSolve .infeasible, .writeResults,
       .addCostCap ((1 + gurobiSequencer.cost_epsilon) * 1000), .delTotalCost,
       .getManager] ∧
    (gurobiSequencer.options.isSome →
      exceptOk (startPreamble gurobiSequencer .infeasible 1000).2 = true) :=
  c9_base_recorded_unconditionally gurobiSequencer .infeasible 1000 rfl

/-- C10: the constructor's solver dispatch (lines 85-109) assigns
`options` only in the gurobi and cbc branches, so for every
configuration whose solver name is neither — including the recognized
`appsi_highs` — the `options` attribute is never assigned; `start`
then fails with an `AttributeError` when building the worker kwargs
(line 214), before any worker is created (no worker-start event in
the trace); and for a solver name outside all three recognized names
`opt` is never assigned either, so `start` fails already at the base
solve (line 161) — only the data load happens. -/
theorem c10_unassigned_solver_attributes :
    (∀ cfg : TemoaConfig, cfg.input_database = cfg.output_database →
        cfg.solver_name ≠ "gurobi" → cfg.solver_name ≠ "cbc" →
        ((MgaSequencer.init cfg).2.map (fun seq => seq.options)) = .ok none) ∧
    (∀ cfg : TemoaConfig, cfg.input_database = cfg.output_database →
        cfg.solver_name = "appsi_highs" →
        ((MgaSequencer.init cfg).2.map (fun seq => (seq.opt, seq.options))) =
          .ok (some .appsiHighs, none)) ∧
    (∀ (seq : MgaSequencer) (status : TerminationCondition) (tot_cost : ℚ),
        seq.opt.isSome → seq.options = none →
        (startPreamble seq status tot_cost).2 = .error (.attributeError "options") ∧
        (startPreamble seq status tot_cost).1.filter isWorkerStart = []) ∧
    (∀ cfg : TemoaConfig, cfg.input_database = cfg.output_database →
        cfg.solver_name ≠ "appsi_highs" → cfg.solver_name ≠ "gurobi" →
        cfg.solver_name ≠ "cbc" →
        ((MgaSequencer.init cfg).2.map (fun seq => seq.opt)) = .ok none) ∧
    (∀ (seq : MgaSequencer) (status : TerminationCondition) (tot_cost : ℚ),
        seq.opt = none →
        startPreamble seq status tot_cost =
          ([StartEvent.loadData], .error (.attributeError "opt"))) := by
  refine ⟨?_, ?_, ?_, ?_, ?_⟩
  · intro cfg h h1 h2
    by_cases h3 : cfg.solver_name = "appsi_highs" <;>
      simp [MgaSequencer.init, h, h1, h2, h3, Except.map]
  · intro cfg h h3
    simp [MgaSequencer.init, h, h3, Except.map]
  · intro seq status tot_cost hopt hops
    rcases hopt2 : seq.opt with _ | o
    · rw [hopt2] at hopt
      simp at hopt
    · constructor
      · simp [startPreamble, hopt2, hops]
      · simp only [startPreamble, hopt2, hops]
        rfl
  · intro cfg h h1 h2 h3
    simp [MgaSequencer.init, h, h1, h2, h3, Except.map]
  · intro seq status tot_cost hopt
    simp [startPreamble, hopt]

/-- C10, witness: the `appsi_highs` configuration constructs with
`opt` assigned but `options` unassigned, and its `start` dies building
the worker kwargs with no worker started; the unrecognized solver
name `glpk` leaves `opt` unassigned too, and its `start` dies at the
base solve. -/
theorem c10_unassigned_solver_attributes_witness :
    ((MgaSequencer.init highsConfig).2.map (fun seq => (seq.opt, seq.options))) =
      .ok (some .appsiHighs, none) ∧
    ((startPreamble highsSequencer .optimal 1000).2 = .error (.attributeError "options") ∧
      (startPreamble highsSequencer .optimal 1000).1.filter isWorkerStart = []) ∧
    ((MgaSequencer.init unknownSolverConfig).2.map (fun seq => seq.opt)) = .ok none ∧
    startPreamble noOptSequencer .optimal 1000 =
      ([StartEvent.loadData], .error (.attributeError "opt")) :=
  ⟨c10_unassigned_solver_attributes.2.1 highsConfig rfl rfl,
   c10_unassigned_solver_attributes.2.2.1 highsSequencer .optimal 1000 rfl rfl,
   c10_unassigned_solver_attributes.2.2.2.1 unknownSolverConfig rfl (by decide)
     (by decide) (by decide),
   c10_unassigned_solver_attributes.2.2.2.2 noOptSequencer .optimal 1000 rfl⟩

end Temoa
